import Mathlib

set_option allowUnsafeReducibility true
attribute [local reducible] Rat.mul Rat.add Rat.div Rat.inv Rat.neg Rat.sub Rat.ofScientific

/-!
Verification of the QuectelGnssRK GNSS acquisition engine.

This file gives a shallow embedding, in Lean 4, of the pieces of the
library that the specification talks about: the C `sscanf`-style response
scanners, the `+CME ERROR` / `+QGPSLOC` / `estimation_error` parsers, the
constellation configuration table, the acquisition worker's poll loop with
its settling policy and teardown, the `getLocation` / `getLocationAsync`
pre-checks, and the JSON serialization of a `LocationPoint`.

Machine floats (`float` / `double`) are embedded as rationals: the modem
reports short decimal strings, and every claim settled here is about which
arithmetic the code performs on the parsed values, not about rounding of
binary floating point.  Machine integers are embedded as `Nat`/`Int`; the
one place the code converts to a 32-bit unsigned quantity (the epoch time
in the JSON payload) takes an explicit `% 2^32`.
-/

namespace QuectelGnss

/-! ## Character-level scanning (C `sscanf` model)

`sscanf` returns the number of conversions assigned, or `EOF` (−1) when the
input ends before the first conversion completes.  A directive either
succeeds, fails to match (a character mismatch), or fails because the input
ran out.  The scanners below reproduce that three-way outcome.
-/

/-- C `isspace` on the characters that can occur in modem responses. -/
def isSpaceC (c : Char) : Bool :=
  c == ' ' || c == '\t' || c == '\n' || c == '\r' || c == '\x0b' || c == '\x0c'

/-- Drop leading whitespace, as a `sscanf` whitespace directive does. -/
def skipWs : List Char → List Char
  | [] => []
  | c :: cs => if isSpaceC c then skipWs cs else c :: cs

/-- Outcome of one `sscanf` directive: success with leftover input, a
matching failure, or an input failure (end of input reached). -/
inductive ScanRes (α : Type) where
  | ok (a : α) (rest : List Char)
  | matchFail
  | inputFail
deriving DecidableEq, Repr

/-- Match a literal sequence of characters.  Running out of input is an
input failure; a mismatching character is a matching failure. -/
def scanLit : List Char → List Char → ScanRes Unit
  | [], cs => .ok () cs
  | _ :: _, [] => .inputFail
  | l :: ls, c :: cs => if c == l then scanLit ls cs else .matchFail

/-- Take at most `budget` leading decimal digits. -/
def takeDigits : Nat → List Char → List Char × List Char
  | 0, cs => ([], cs)
  | _ + 1, [] => ([], [])
  | budget + 1, c :: cs =>
    if c.isDigit then
      let (ds, rest) := takeDigits budget cs
      (c :: ds, rest)
    else
      ([], c :: cs)

/-- Numeric value of a string of decimal digits. -/
def digitsVal (ds : List Char) : Nat :=
  ds.foldl (fun a c => a * 10 + (c.toNat - 48)) 0

/-- The `%u` conversion (with an optional maximum field width, as in
`%02u`): skip whitespace, optionally a sign, then at least one digit.
A negative value stores its two's-complement unsigned image, as C does;
the in-range positive values the modem produces are kept exactly. -/
def scanUInt (w : Option Nat) (cs0 : List Char) : ScanRes Nat :=
  let cs := skipWs cs0
  match cs with
  | [] => .inputFail
  | c :: rest =>
    let budget := w.getD cs.length
    let (neg, cs1, budget1) :=
      if c == '-' then (true, rest, budget - 1)
      else if c == '+' then (false, rest, budget - 1)
      else (false, cs, budget)
    match takeDigits budget1 cs1 with
    | ([], _) => .matchFail
    | (ds, rest1) =>
      let v := digitsVal ds
      .ok (if neg then (4294967296 - v % 4294967296) % 4294967296 else v) rest1

/-- The `%f` / `%lf` conversion for the decimal forms the modem emits:
skip whitespace, optional sign, digits with an optional fraction part
(at least one digit overall). -/
def scanRatF (cs0 : List Char) : ScanRes ℚ :=
  let cs := skipWs cs0
  match cs with
  | [] => .inputFail
  | c :: rest =>
    let (neg, cs1) :=
      if c == '-' then (true, rest)
      else if c == '+' then (false, rest)
      else (false, cs)
    let (intDs, cs2) := takeDigits cs1.length cs1
    let (fracDs, cs3) :=
      match cs2 with
      | '.' :: cs2' =>
        let (fs, r) := takeDigits cs2'.length cs2'
        (fs, r)
      | _ => ([], cs2)
    let consumedDot : Bool := match cs2 with | '.' :: _ => true | _ => false
    if intDs = [] ∧ fracDs = [] then .matchFail
    else
      let mag : ℚ := (digitsVal intDs : ℚ) + (digitsVal fracDs : ℚ) / ((10 : ℚ) ^ fracDs.length)
      let rest1 := if consumedDot then cs3 else cs2
      .ok (if neg then -mag else mag) rest1

/-! ## `+CME ERROR` parsing -/

/-- `CME_Error` enumeration from `QuectelGnssRK.h` (values 0, 1, 504, 505,
506, 516, 522, 549, 999). -/
inductive CME_Error where
  | NONE
  | FIX
  | SESSION_IS_ONGOING
  | SESSION_NOT_ACTIVE
  | OPERATION_TIMEOUT
  | NO_FIX
  | GNSS_IS_WORKING
  | UNKNOWN_ERROR
  | UNDEFINED
deriving DecidableEq, Repr

/-- The `switch` in `parseCmeError`: the whitelisted numeric codes map to
their enumerators; any other parsed code leaves the `UNDEFINED` sentinel. -/
def cmeOfCode (ec : Nat) : CME_Error :=
  if ec = 504 then .SESSION_IS_ONGOING
  else if ec = 505 then .SESSION_NOT_ACTIVE
  else if ec = 506 then .OPERATION_TIMEOUT
  else if ec = 516 then .NO_FIX
  else if ec = 522 then .GNSS_IS_WORKING
  else if ec = 549 then .UNKNOWN_ERROR
  else .UNDEFINED

/-- `sscanf(buf, " +CME ERROR: %u", &error_code)`: returns the `sscanf`
result together with the parsed code, if any. -/
def scanCme (cs : List Char) : Int × Option Nat :=
  match scanLit ['+', 'C', 'M', 'E'] (skipWs cs) with
  | .matchFail => (0, none)
  | .inputFail => (-1, none)
  | .ok _ r1 =>
    match scanLit ['E', 'R', 'R', 'O', 'R', ':'] (skipWs r1) with
    | .matchFail => (0, none)
    | .inputFail => (-1, none)
    | .ok _ r2 =>
      match scanUInt none r2 with
      | .matchFail => (0, none)
      | .inputFail => (-1, none)
      | .ok v _ => (1, some v)

/-- `QuectelGnssRK::parseCmeError`: `error_code` starts at 0; only an
`sscanf` result of exactly 0 returns `NONE`; otherwise the `switch` maps
the (possibly still 0) code through the whitelist, defaulting to
`UNDEFINED`. -/
def parseCmeError (buf : String) : CME_Error :=
  let (nargs, code) := scanCme buf.toList
  if nargs = 0 then .NONE
  else cmeOfCode (code.getD 0)

/-! ## `+QGPSLOC` fix-report parsing -/

/-- The persistent `QlocContext` member: fields assigned by the
`+QGPSLOC` `sscanf` (machine floats embedded as rationals). -/
structure QlocContext where
  tm_hour : Nat := 0
  tm_min : Nat := 0
  tm_sec : Nat := 0
  tm_day : Nat := 0
  tm_month : Nat := 0
  tm_year : Nat := 0
  latitude : ℚ := 0
  longitude : ℚ := 0
  fix : Nat := 0
  hdop : ℚ := 0
  altitude : ℚ := 0
  cogDegrees : Nat := 0
  cogMinutes : Nat := 0
  speedKmph : ℚ := 0
  speedKnots : ℚ := 0
  nsat : Nat := 0
deriving DecidableEq, Repr

/-- The freshly constructed (zero-initialized) context. -/
def QlocContext.init : QlocContext := {}

/-- `LocationPoint` from `QuectelGnssRK.h` (floats/doubles as rationals,
`time_t` as an integer). -/
structure LocationPoint where
  fix : Nat := 0
  epochTime : Int := 0
  systemTime : Int := 0
  latitude : ℚ := 0
  longitude : ℚ := 0
  altitude : ℚ := 0
  speed : ℚ := 0
  heading : ℚ := 0
  horizontalAccuracy : ℚ := 0
  horizontalDop : ℚ := 0
  verticalAccuracy : ℚ := 0
  verticalDop : ℚ := 0
  timeToFirstFix : ℚ := 0
  satsInUse : Nat := 0
deriving DecidableEq, Repr

/-- The zeroed `LocationPoint` (`memset(&point, 0, sizeof(LocationPoint))`). -/
def LocationPoint.zero : LocationPoint := {}

/-- Running state of the `+QGPSLOC` scan: leftover input, number of
conversions assigned so far, and the context updated so far. -/
structure QScan where
  rest : List Char
  count : Nat
  ctx : QlocContext

/-- A scan step either continues or ends the whole scan with the final
`sscanf` return value and the partially updated context. -/
abbrev QStep := Except (Int × QlocContext) QScan

/-- Final `sscanf` return value at a failing directive: `EOF` (−1) only
when the input ran out before the first conversion completed. -/
def qFail (s : QScan) (input : Bool) : Int × QlocContext :=
  (if s.count = 0 ∧ input then -1 else (s.count : Int), s.ctx)

/-- Literal directive inside the `+QGPSLOC` format. -/
def qLit (l : List Char) (s : QScan) : QStep :=
  match scanLit l s.rest with
  | .ok _ r => .ok { s with rest := r }
  | .matchFail => .error (qFail s false)
  | .inputFail => .error (qFail s true)

/-- Assigned `%u`-style conversion: stores through `set` and counts. -/
def qUInt (w : Option Nat) (set : Nat → QlocContext → QlocContext) (s : QScan) : QStep :=
  match scanUInt w s.rest with
  | .ok v r => .ok { rest := r, count := s.count + 1, ctx := set v s.ctx }
  | .matchFail => .error (qFail s false)
  | .inputFail => .error (qFail s true)

/-- Assignment-suppressed `%*03u` conversion: consumes input, counts not. -/
def qUIntSkip (w : Option Nat) (s : QScan) : QStep :=
  match scanUInt w s.rest with
  | .ok _ r => .ok { s with rest := r }
  | .matchFail => .error (qFail s false)
  | .inputFail => .error (qFail s true)

/-- Assigned `%f`/`%lf` conversion. -/
def qRat (set : ℚ → QlocContext → QlocContext) (s : QScan) : QStep :=
  match scanRatF s.rest with
  | .ok v r => .ok { rest := r, count := s.count + 1, ctx := set v s.ctx }
  | .matchFail => .error (qFail s false)
  | .inputFail => .error (qFail s true)

/-- The `sscanf` of `parseQloc`, format
`" +QGPSLOC: %02u%02u%02u.%*03u,%lf,%lf,%f,%f,%u,%03u.%02u,%f,%f,%02u%02u%02u,%u"`:
returns the `sscanf` result and the (possibly partially) updated context. -/
def scanQloc (cs : List Char) (ctx : QlocContext) : Int × QlocContext :=
  let r : QStep := do
    let s ← qLit ['+', 'Q', 'G', 'P', 'S', 'L', 'O', 'C', ':'] ⟨skipWs cs, 0, ctx⟩
    let s ← qUInt (some 2) (fun v c => { c with tm_hour := v }) s
    let s ← qUInt (some 2) (fun v c => { c with tm_min := v }) s
    let s ← qUInt (some 2) (fun v c => { c with tm_sec := v }) s
    let s ← qLit ['.'] s
    let s ← qUIntSkip (some 3) s
    let s ← qLit [','] s
    let s ← qRat (fun v c => { c with latitude := v }) s
    let s ← qLit [','] s
    let s ← qRat (fun v c => { c with longitude := v }) s
    let s ← qLit [','] s
    let s ← qRat (fun v c => { c with hdop := v }) s
    let s ← qLit [','] s
    let s ← qRat (fun v c => { c with altitude := v }) s
    let s ← qLit [','] s
    let s ← qUInt none (fun v c => { c with fix := v }) s
    let s ← qLit [','] s
    let s ← qUInt (some 3) (fun v c => { c with cogDegrees := v }) s
    let s ← qLit ['.'] s
    let s ← qUInt (some 2) (fun v c => { c with cogMinutes := v }) s
    let s ← qLit [','] s
    let s ← qRat (fun v c => { c with speedKmph := v }) s
    let s ← qLit [','] s
    let s ← qRat (fun v c => { c with speedKnots := v }) s
    let s ← qLit [','] s
    let s ← qUInt (some 2) (fun v c => { c with tm_day := v }) s
    let s ← qUInt (some 2) (fun v c => { c with tm_month := v }) s
    let s ← qUInt (some 2) (fun v c => { c with tm_year := v }) s
    let s ← qLit [','] s
    let s ← qUInt none (fun v c => { c with nsat := v }) s
    pure s
  match r with
  | .ok s => ((s.count : Int), s.ctx)
  | .error e => e

/-- Days since the Unix epoch of a civil date (the standard
days-from-civil algorithm, matching `mktime` on a UTC-configured
system); `d` enters linearly, so out-of-range day numbers normalize
exactly as `mktime` normalizes them. -/
def daysFromCivil (y m d : Int) : Int :=
  let y1 := if m ≤ 2 then y - 1 else y
  let era := (if 0 ≤ y1 then y1 else y1 - 399) / 400
  let yoe := y1 - era * 400
  let doy := (153 * (if 2 < m then m - 3 else m + 9) + 2) / 5 + d - 1
  let doe := yoe * 365 + yoe / 4 - yoe / 100 + doy
  era * 146097 + doe - 719468

/-- `std::mktime` over the `tm` structure filled by `parseQloc`:
year `2000 + yy`, month normalized the way `mktime` normalizes
`tm_mon = month − 1`, and day/hour/minute/second added linearly. -/
def epochOf (c : QlocContext) : Int :=
  let ym : Int := ((c.tm_year : Int) + 2000) * 12 + ((c.tm_month : Int) - 1)
  daysFromCivil (ym / 12) (ym % 12 + 1) c.tm_day * 86400
    + c.tm_hour * 3600 + c.tm_min * 60 + c.tm_sec

/-- `QuectelGnssRK::parseQloc`: scans the buffer into the persistent
context; returns −1 ("no match") only when the scan assigned exactly zero
fields, and otherwise (including the `EOF` case) overwrites the output
point's fields from the context. -/
def parseQloc (buf : String) (ctx : QlocContext) (point : LocationPoint) :
    Int × QlocContext × LocationPoint :=
  let (nargs, ctx') := scanQloc buf.toList ctx
  if nargs = 0 then (-1, ctx', point)
  else
    let pt := { point with
      epochTime := epochOf ctx'
      fix := ctx'.fix
      latitude := ctx'.latitude
      longitude := ctx'.longitude
      altitude := ctx'.altitude
      speed := ctx'.speedKmph * 1000
      heading := (ctx'.cogDegrees : ℚ) + (ctx'.cogMinutes : ℚ) / 60
      horizontalDop := ctx'.hdop
      satsInUse := ctx'.nsat }
    (0, ctx', pt)

/-- `QuectelGnssRK::parseQlocResponse`: a reported `+CME ERROR: 516`
clears the fix flag; any other recognized error is reported as `NONE`
("module just may have not been initialized"); otherwise the line falls
through to `parseQloc` and yields `FIX` or `UNKNOWN_ERROR`. -/
def parseQlocResponse (buf : String) (ctx : QlocContext) (point : LocationPoint) :
    CME_Error × QlocContext × LocationPoint :=
  let result := parseCmeError buf
  if result = .NO_FIX then (.NO_FIX, ctx, { point with fix := 0 })
  else if result ≠ .NONE then (.NONE, ctx, point)
  else
    let (locResult, ctx', pt') := parseQloc buf ctx point
    (if locResult = 0 then .FIX else .UNKNOWN_ERROR, ctx', pt')

/-! ## Modem capability and constellation configuration -/

/-- The private `_ModemType` enumeration. -/
inductive ModemType where
  | Unavailable
  | Unsupported
  | BG95_M5
  | EG91
deriving DecidableEq, Repr

/-- `QuectelGnssRK::concurrentGnssAndCellularSupported`: false exactly on
BG95. -/
def concurrentGnssAndCellularSupported (mt : ModemType) : Bool :=
  match mt with
  | .BG95_M5 => false
  | _ => true

/-- `LocationConstellation` bitmask values from the header
(`GPS_ONLY = 0`, the others single bits). -/
def LOCATION_CONST_GPS_ONLY : Nat := 0

/-- `LOCATION_CONST_GPS_GLONASS = 1 << 0`. -/
def LOCATION_CONST_GPS_GLONASS : Nat := 1

/-- `LOCATION_CONST_GPS_BEIDOU = 1 << 1`. -/
def LOCATION_CONST_GPS_BEIDOU : Nat := 2

/-- `LOCATION_CONST_GPS_GALILEO = 1 << 2`. -/
def LOCATION_CONST_GPS_GALILEO : Nat := 4

/-- `LOCATION_CONST_GPS_QZSS = 1 << 3`. -/
def LOCATION_CONST_GPS_QZSS : Nat := 8

/-- The `configNumber` computed by `QuectelGnssRK::setConstellation`,
including its initial value −1 when no branch fires.  The C conditions
are bitwise tests `flags & MASK` used as truth values. -/
def setConstellationCfgNum (mt : ModemType) (flags : Nat) : Int :=
  if mt = .BG95_M5 then
    if (flags &&& LOCATION_CONST_GPS_ONLY) ≠ 0 ∨ (flags &&& LOCATION_CONST_GPS_GLONASS) ≠ 0 then 1
    else if (flags &&& LOCATION_CONST_GPS_BEIDOU) ≠ 0 then 2
    else if (flags &&& LOCATION_CONST_GPS_GALILEO) ≠ 0 then 3
    else if (flags &&& LOCATION_CONST_GPS_QZSS) ≠ 0 then 4
    else -1
  else if mt = .EG91 then
    if (flags &&& LOCATION_CONST_GPS_ONLY) ≠ 0 then 0
    else if (flags &&& LOCATION_CONST_GPS_GLONASS) ≠ 0 then 4
    else if (flags &&& LOCATION_CONST_GPS_BEIDOU) ≠ 0 then 7
    else if (flags &&& LOCATION_CONST_GPS_GALILEO) ≠ 0 then 6
    else -1
  else -1

/-- The `AT+QGPSCFG="gnssconfig",<n>` command text. -/
def gnssConfigCmd (n : Int) : String :=
  "AT+QGPSCFG=\"gnssconfig\"," ++ toString n

/-- `QuectelGnssRK::setConstellation` issues the configuration command
exactly when `configNumber >= 0`. -/
def setConstellationCmds (mt : ModemType) (flags : Nat) : List String :=
  let n := setConstellationCfgNum mt flags
  if 0 ≤ n then [gnssConfigCmd n] else []

/-! ## The acquisition worker's poll loop

The poll loop of `threadLoop` is embedded over a synthetic list of
iterations.  Each iteration supplies what the worker would observe: the
`isModemOn()` reading taken at the top of the `while`, and the class of
result `parseQlocResponse` produces for that iteration's `AT+QGPSLOC=2`
response (a parsed fix with the HDOP and — after the BG95-only
`estimation_error` query — horizontal-accuracy values it stores into
`lastLocation`, an explicit no-fix error, or anything else).  The
configured maximum fix time bounds the number of polls; exhausting the
list models exceeding it while still powered.  Time-to-first-fix
bookkeeping does not influence the loop's control flow and is omitted.
-/

/-- `LocationResults` from the header. -/
inductive LocationResults where
  | Unavailable
  | Unsupported
  | Idle
  | Acquiring
  | Pending
  | Fixed
  | TimedOut
deriving DecidableEq, Repr

/-- `LOCATION_REQUIRED_SETTLING_COUNT` ("Number of consecutive fixes"). -/
def LOCATION_REQUIRED_SETTLING_COUNT : Nat := 2

/-- What one poll iteration yields. -/
inductive PollObs where
  | fixObs (hdop hacc : ℚ)
  | noFix
  | other
deriving DecidableEq, Repr

/-- The configuration fields the worker reads during an acquisition. -/
structure AcqConfig where
  hdopThreshold : ℚ
  haccThreshold : ℚ
  constellations : Nat
deriving DecidableEq, Repr

/-- How the `while` loop of the Acquire handler ended. -/
inductive LoopEnd where
  | fixed
  | timedOut
  | powerOff
deriving DecidableEq, Repr

/-- One iteration of the poll loop over the running state
`(fixCount, lastLocation.horizontalAccuracy)`.  `epe` tells whether the
variant issues the accuracy query (BG95): without it the accuracy field
keeps its zeroed initial value.  On a parsed fix the counter increments
and the loop accepts exactly when the counter *equals* the settling count
and the just-stored HDOP and accuracy pass the thresholds. -/
def pollStep (epe : Bool) (cfg : AcqConfig) (s : Nat × ℚ) :
    Bool × PollObs → (Nat × ℚ) ⊕ LoopEnd
  | (false, _) => .inr .powerOff
  | (true, o) =>
    match o with
    | .fixObs h a =>
      let hacc := if epe then a else s.2
      let fc := s.1 + 1
      if fc = LOCATION_REQUIRED_SETTLING_COUNT ∧ h ≤ cfg.hdopThreshold ∧ hacc ≤ cfg.haccThreshold
      then .inr .fixed
      else .inl (fc, hacc)
    | _ => .inl s

/-- Run the poll loop over a list of iterations; `.inl` means the time
budget would be the next thing to expire. -/
def pollRun (epe : Bool) (cfg : AcqConfig) :
    List (Bool × PollObs) → Nat × ℚ → (Nat × ℚ) ⊕ LoopEnd
  | [], s => .inl s
  | ob :: rest, s =>
    match pollStep epe cfg s ob with
    | .inl s' => pollRun epe cfg rest s'
    | .inr e => .inr e

/-- The loop's exit classification: exhausting the allotted polls while
powered is the `TimedOut` default of the `response` variable. -/
def pollLoop (epe : Bool) (cfg : AcqConfig) (obs : List (Bool × PollObs))
    (s : Nat × ℚ) : LoopEnd :=
  match pollRun epe cfg obs s with
  | .inl _ => .timedOut
  | .inr e => e

/-- The post-loop fixup `if (!power && (Fixed != response)) response =
Unavailable`: a loop that ended on a powered-off observation (never with
`Fixed`, since acceptance breaks out while powered) reports
`Unavailable`. -/
def settleOutcome : LoopEnd → LocationResults
  | .fixed => .Fixed
  | .timedOut => .TimedOut
  | .powerOff => .Unavailable

/-- GNSS hardware state owned by the worker. -/
structure HwState where
  gnssStarted : Bool
  antennaOn : Bool
deriving DecidableEq, Repr

/-- The whole `LocationCommand::Acquire` handler of `threadLoop`:
start-up (antenna power, `AT+QGPS=1`, BG95-only `nmea_epe`, constellation
config) when not already started, the poll loop, and the unconditional
teardown (`AT+QGPSEND`, antenna off, started-flag cleared) on variants
without concurrent GNSS+cellular.  Returns the acquisition outcome, the
final hardware state, and the non-poll commands issued. -/
def acquireAttempt (mt : ModemType) (pinConfigured : Bool) (cfg : AcqConfig)
    (hw : HwState) (obs : List (Bool × PollObs)) :
    LocationResults × HwState × List String :=
  let (hw1, startCmds) :=
    if hw.gnssStarted = false then
      ({ gnssStarted := true, antennaOn := if pinConfigured then true else hw.antennaOn },
        ["AT+QGPS=1"]
          ++ (if mt = .BG95_M5 then ["AT+QGPSCFG=\"nmea_epe\",1"] else [])
          ++ setConstellationCmds mt cfg.constellations)
    else (hw, [])
  let loopEnd := pollLoop (mt == .BG95_M5) cfg obs (0, 0)
  let (hw2, endCmds) :=
    if concurrentGnssAndCellularSupported mt = false then
      ({ gnssStarted := false, antennaOn := if pinConfigured then false else hw1.antennaOn },
        ["AT+QGPSEND"])
    else (hw1, [])
  (settleOutcome loopEnd, hw2, startCmds ++ endCmds)

/-! ## Public API pre-checks (`getLocation` / `getLocationAsync`) -/

/-- What `cellular_device_info` would report, classified. -/
inductive DetectObs where
  | notCached
  | bg95
  | eg91
  | unknown
deriving DecidableEq, Repr

/-- `QuectelGnssRK::detectModemType`: only attempts detection while the
type is still unread and the modem is on; an uncached identity leaves the
type unset, an unrecognized identity sets `Unsupported`; a previously
detected supported type reports success. -/
def detectModemTypeF (mt : ModemType) (modemOn : Bool) (obs : DetectObs) :
    Bool × ModemType :=
  if mt = .Unavailable ∧ modemOn = true then
    match obs with
    | .notCached => (false, mt)
    | .bg95 => (true, .BG95_M5)
    | .eg91 => (true, .EG91)
    | .unknown => (false, .Unsupported)
  else if mt ≠ .Unavailable ∧ mt ≠ .Unsupported then (true, mt)
  else (false, mt)

/-- The caller-visible engine state the entry points read and write. -/
structure ApiState where
  modemOn : Bool
  modemType : ModemType
  acquiring : Bool
  lastResults : LocationResults
deriving DecidableEq, Repr

/-- Store into the `lastResults` cache. -/
def setLast (s : ApiState) (r : LocationResults) : ApiState :=
  { s with lastResults := r }

/-- The detection step inside the pre-checks: `detectModemType` is
called only while the modem type is still unread (`modemNotDetected`),
and its possible update of the `_modemType` member is the pair's second
component. -/
def preDetect (s : ApiState) (obs : DetectObs) : Bool × ModemType :=
  if s.modemType = .Unavailable then detectModemTypeF s.modemType s.modemOn obs
  else (true, s.modemType)

/-- The common pre-check sequence of `getLocation` and
`getLocationAsync` (they are textually identical in the source): modem
off → `Unavailable`; undetected modem whose detection fails →
`Unsupported`; acquisition already in flight → `Pending`.  Each rejection
overwrites `lastResults` before returning; `none` means the request is
accepted and an `Acquire` command is enqueued. -/
def acquirePreCheck (s : ApiState) (obs : DetectObs) :
    Option LocationResults × ApiState :=
  if s.modemOn = false then (some .Unavailable, setLast s .Unavailable)
  else if (preDetect s obs).1 = false then
    (some .Unsupported, setLast { s with modemType := (preDetect s obs).2 } .Unsupported)
  else if s.acquiring = true then
    (some .Pending, setLast { s with modemType := (preDetect s obs).2 } .Pending)
  else (none, { s with modemType := (preDetect s obs).2 })

/-- Outcome of a `getLocation` call as seen by the caller thread: either
an immediate rejection, or acceptance (the command was enqueued and the
synchronous caller then blocks on the response queue). -/
inductive CallOutcome where
  | rejected (r : LocationResults)
  | accepted
deriving DecidableEq, Repr

/-- `QuectelGnssRK::getLocation` up to its worker interaction: result
class, updated state, and whether an `Acquire` command was enqueued. -/
def getLocationF (s : ApiState) (obs : DetectObs) :
    CallOutcome × ApiState × Bool :=
  match acquirePreCheck s obs with
  | (some r, s') => (.rejected r, s', false)
  | (none, s') => (.accepted, s', true)

/-- `QuectelGnssRK::getLocationAsync`: identical pre-checks; on
acceptance it returns `Acquiring` immediately. -/
def getLocationAsyncF (s : ApiState) (obs : DetectObs) :
    LocationResults × ApiState × Bool :=
  match acquirePreCheck s obs with
  | (some r, s') => (r, s', false)
  | (none, s') => (.Acquiring, s', true)

/-- `QuectelGnssRK::getLastResults`. -/
def getLastResultsF (s : ApiState) : LocationResults := s.lastResults

/-- `QuectelGnssRK::getHasFix`: `lastResults == LocationResults::Fixed`. -/
def getHasFixF (s : ApiState) : Bool := s.lastResults == .Fixed

/-! ## JSON serialization of a `LocationPoint` -/

/-- A JSON scalar as the `JSONWriter` receives it: a plain integer, an
unsigned integer, or a floating value paired with the requested number of
decimal places. -/
inductive JVal where
  | jint (n : Int)
  | juint (n : Nat)
  | jnum (q : ℚ) (prec : Nat)
deriving DecidableEq, Repr

/-- The C cast `(unsigned int)` applied to the 64-bit epoch time. -/
def castUInt32 (t : Int) : Nat := (t % 4294967296).toNat

/-- `LocationPoint::toJsonWriter`, as the ordered list of name/value
pairs written into the (possibly wrapped) location object. -/
def toJsonWriterFields (p : LocationPoint) : List (String × JVal) :=
  if p.fix = 0 then [("lck", .jint 0)]
  else
    [("lck", .jint 1),
     ("time", .juint (castUInt32 p.epochTime)),
     ("lat", .jnum p.latitude 8),
     ("lon", .jnum p.longitude 8),
     ("alt", .jnum p.altitude 3),
     ("hd", .jnum p.heading 2),
     ("spd", .jnum p.speed 2),
     ("hdop", .jnum p.horizontalDop 1)]
    ++ (if 0 < p.horizontalAccuracy then [("h_acc", .jnum p.horizontalAccuracy 3)] else [])
    ++ (if 0 < p.verticalAccuracy then [("v_acc", .jnum p.verticalAccuracy 3)] else [])
    ++ [("nsat", .juint p.satsInUse),
        ("ttff", .jnum p.timeToFirstFix 1)]

/-! ## Helper lemmas -/

/-- A decimal digit is not scanner whitespace. -/
lemma isSpaceC_of_isDigit {c : Char} (h : c.isDigit = true) : isSpaceC c = false := by
  by_contra hb
  rw [Bool.not_eq_false] at hb
  unfold isSpaceC at hb
  simp only [Bool.or_eq_true, beq_iff_eq] at hb
  rcases hb with ((((h1 | h1) | h1) | h1) | h1) | h1 <;> subst h1 <;> exact absurd h (by decide)

/-- A decimal digit is not the minus sign. -/
lemma beq_minus_of_isDigit {c : Char} (h : c.isDigit = true) : (c == '-') = false := by
  by_contra hb
  rw [Bool.not_eq_false, beq_iff_eq] at hb
  subst hb
  exact absurd h (by decide)

/-- A decimal digit is not the plus sign. -/
lemma beq_plus_of_isDigit {c : Char} (h : c.isDigit = true) : (c == '+') = false := by
  by_contra hb
  rw [Bool.not_eq_false, beq_iff_eq] at hb
  subst hb
  exact absurd h (by decide)

/-- `skipWs` leaves a digit-headed string alone. -/
lemma skipWs_digit_head {c : Char} {cs : List Char} (h : c.isDigit = true) :
    skipWs (c :: cs) = c :: cs := by
  simp [skipWs, isSpaceC_of_isDigit h]

/-- With enough budget, `takeDigits` consumes an all-digit string whole. -/
lemma takeDigits_all {ds : List Char} (hd : ∀ c ∈ ds, c.isDigit = true) :
    ∀ b : Nat, ds.length ≤ b → takeDigits b ds = (ds, []) := by
  induction ds with
  | nil => intro b _; cases b <;> simp [takeDigits]
  | cons c cs ih =>
    intro b hb
    match b, hb with
    | b + 1, hb =>
      have hc : c.isDigit = true := hd c (by simp)
      have ih' := ih (fun x hx => hd x (by simp [hx])) b (by simpa using hb)
      simp [takeDigits, hc, ih']

/-- `%u` with no width on a nonempty all-digit string scans it whole. -/
lemma scanUInt_digits {ds : List Char} (hne : ds ≠ []) (hd : ∀ c ∈ ds, c.isDigit = true) :
    scanUInt none ds = .ok (digitsVal ds) [] := by
  match ds, hne with
  | c :: cs, _ =>
    have hc : c.isDigit = true := hd c (by simp)
    unfold scanUInt
    rw [skipWs_digit_head hc]
    have ht : takeDigits (cs.length + 1) (c :: cs) = (c :: cs, []) :=
      takeDigits_all hd _ (by simp)
    simp [beq_minus_of_isDigit hc, beq_plus_of_isDigit hc, ht]

/-- The literal `" +CME ERROR: "` marker. -/
def cmeMarker : List Char := [' ', '+', 'C', 'M', 'E', ' ', 'E', 'R', 'R', 'O', 'R', ':', ' ']

/-- `scanCme` past the concrete marker reduces to the `%u` conversion on
the remaining text. -/
lemma scanCme_marker (t : List Char) :
    scanCme (cmeMarker ++ t) =
      match scanUInt none (' ' :: t) with
      | .matchFail => (0, none)
      | .inputFail => (-1, none)
      | .ok v _ => (1, some v) := rfl

/-- `%u` skips a leading blank. -/
lemma scanUInt_cons_space (w : Option Nat) (cs : List Char) :
    scanUInt w (' ' :: cs) = scanUInt w cs := by
  unfold scanUInt
  rw [show skipWs (' ' :: cs) = skipWs cs from by simp [skipWs, isSpaceC]]

/-- `skipWs` is idempotent-shaped: scanning after it equals scanning the
original, since `scanUInt` begins with `skipWs`. -/
lemma skipWs_skipWs (cs : List Char) : skipWs (skipWs cs) = skipWs cs := by
  induction cs with
  | nil => simp [skipWs]
  | cons c cs ih =>
    by_cases h : isSpaceC c = true
    · simp [skipWs, h, ih]
    · simp only [Bool.not_eq_true] at h
      simp [skipWs, h]

/-- Splitting a `pollRun` over an appended observation list. -/
lemma pollRun_append (epe : Bool) (cfg : AcqConfig) (l1 l2 : List (Bool × PollObs))
    (s : Nat × ℚ) :
    pollRun epe cfg (l1 ++ l2) s =
      match pollRun epe cfg l1 s with
      | .inl s' => pollRun epe cfg l2 s'
      | .inr e => .inr e := by
  induction l1 generalizing s with
  | nil => simp [pollRun]
  | cons ob rest ih =>
    simp only [List.cons_append, pollRun]
    cases pollStep epe cfg s ob with
    | inl s' => simpa using ih s'
    | inr e => simp

/-- Every rejection of the shared pre-check stores its own code into the
`lastResults` cache, and the code is one of the three rejection values. -/
lemma acquirePreCheck_rejected {s : ApiState} {obs : DetectObs} {r : LocationResults}
    {s' : ApiState} (h : acquirePreCheck s obs = (some r, s')) :
    s'.lastResults = r ∧ (r = .Unavailable ∨ r = .Unsupported ∨ r = .Pending) := by
  unfold acquirePreCheck at h
  by_cases hOn : s.modemOn = false
  · rw [if_pos hOn] at h
    simp only [Prod.mk.injEq, Option.some.injEq] at h
    obtain ⟨h1, h2⟩ := h
    subst h1; subst h2
    exact ⟨rfl, by simp⟩
  · rw [if_neg hOn] at h
    by_cases hDet : (preDetect s obs).1 = false
    · rw [if_pos hDet] at h
      simp only [Prod.mk.injEq, Option.some.injEq] at h
      obtain ⟨h1, h2⟩ := h
      subst h1; subst h2
      exact ⟨rfl, by simp⟩
    · rw [if_neg hDet] at h
      by_cases hAcq : s.acquiring = true
      · rw [if_pos hAcq] at h
        simp only [Prod.mk.injEq, Option.some.injEq] at h
        obtain ⟨h1, h2⟩ := h
        subst h1; subst h2
        exact ⟨rfl, by simp⟩
      · rw [if_neg hAcq] at h
        simp only [Prod.mk.injEq] at h
        exact absurd h.1 (by simp)

/-! ## Concrete sample responses -/

/-- A complete, well-formed `+QGPSLOC` response line: 12:05:30 UTC,
latitude 37.422408, longitude −122.084066, HDOP 1.2, altitude 10.5,
fix flag 3, course 045.30, 3.6 km/h, 1.9 knots, date 15-06-2024,
8 satellites. -/
def exQlocLine : String :=
  " +QGPSLOC: 120530.00,37.422408,-122.084066,1.2,10.5,3,045.30,3.6,1.9,150624,08"

/-- The `fix = 1` sample point of the payload round-trip property. -/
def pEx : LocationPoint :=
  { fix := 1, latitude := 37.422408, longitude := -122.084066, horizontalAccuracy := 15 }

/-! ## Claim theorems -/

/-- C1: the code violates the claimed stabilization policy.  With HDOP
threshold 2 (accuracy threshold 50, accuracy reporting available), the
poll-response sequence qualifying fix, non-qualifying fix, qualifying
fix, qualifying fix — the claim's own synthetic sequence — ends
`TimedOut`, not `Fixed`: `fixCount` counts every parsed fix, is never
reset, and is compared with `==` against the settling count, so once the
second fix fails the thresholds the acquisition can never again satisfy
`fixCount == 2`.  Conversely a sequence with no two consecutive
qualifying fixes (non-qualifying fix, explicit no-fix, qualifying fix)
is accepted as `Fixed`, because the no-fix report does not reset the
counter and only the latest fix's quality is checked. -/
theorem settling_count_equality_eval :
    settleOutcome (pollLoop true ⟨2, 50, 0⟩
      [(true, .fixObs 1 10), (true, .fixObs 10 10), (true, .fixObs 1 10),
       (true, .fixObs 1 10), (true, .noFix), (true, .noFix)] (0, 0)) = .TimedOut ∧
    settleOutcome (pollLoop true ⟨2, 50, 0⟩
      [(true, .fixObs 10 10), (true, .noFix), (true, .fixObs 1 10)] (0, 0)) = .Fixed := by
  decide

/-- C2 counterexample: the truncated line `" +QGPSLOC: 120000.00,12.5"`
does not fit the expected field count, yet `parseQloc` reports a match
(`sscanf` assigns 4 of the 16 fields, and only an assignment count of
exactly 0 is treated as "no match") and does mutate the output point
(its latitude becomes 12.5). -/
theorem parseQloc_truncated_line_matches :
    (parseQloc " +QGPSLOC: 120000.00,12.5" QlocContext.init LocationPoint.zero).1 = 0 ∧
    (parseQloc " +QGPSLOC: 120000.00,12.5" QlocContext.init LocationPoint.zero).2.2.latitude = 12.5 ∧
    (parseQloc " +QGPSLOC: 120000.00,12.5" QlocContext.init LocationPoint.zero).2.2 ≠ LocationPoint.zero := by
  decide

/-- C2 as amended: `parseQloc` returns "no match" (−1) and leaves every
field of the output point unchanged exactly for the lines on which the
scan assigns zero fields; lines that partially match (at least one field
assigned, or end-of-input before the first conversion) are treated as
matches and mutate the point. -/
theorem parseQloc_no_assign_no_match (buf : String) (ctx : QlocContext) (pt : LocationPoint)
    (h : (scanQloc buf.toList ctx).1 = 0) :
    parseQloc buf ctx pt = (-1, (scanQloc buf.toList ctx).2, pt) := by
  rcases hsc : scanQloc buf.data ctx with ⟨n, c⟩
  have h2 : n = 0 := by
    rw [show buf.toList = buf.data from rfl, hsc] at h
    exact h
  simp [parseQloc, String.toList, hsc, h2]

/-- C2 witness: a line failing the literal response prefix is left
untouched and reported as no match. -/
theorem parseQloc_no_assign_no_match_witness :
    parseQloc "ERROR" QlocContext.init LocationPoint.zero =
      (-1, (scanQloc "ERROR".toList QlocContext.init).2, LocationPoint.zero) :=
  parseQloc_no_assign_no_match "ERROR" QlocContext.init LocationPoint.zero (by decide)

/-- C3: on the sample fix line, the derived epoch (2024-06-15 12:05:30,
two-digit year read as 2000+24) and the derived heading (45° + 30′/60)
match the claim, but the stored speed is the reported 3.6 km/h
multiplied by 1000 — 3600 — and not the meters-per-second value 1 that
the claim (and the header's own `/**< Point speed in meters per second
*/`) requires. -/
theorem parseQloc_derived_fields_eval :
    (parseQloc exQlocLine QlocContext.init LocationPoint.zero).2.2.epochTime = 1718453130 ∧
    (parseQloc exQlocLine QlocContext.init LocationPoint.zero).2.2.heading = 45.5 ∧
    (parseQloc exQlocLine QlocContext.init LocationPoint.zero).2.2.speed = 3600 ∧
    (parseQloc exQlocLine QlocContext.init LocationPoint.zero).2.2.speed ≠ 1 := by
  decide

/-- C4 counterexample: a `+CME ERROR` line carrying the non-whitelisted
code 100 maps to the `UNDEFINED` sentinel (999), not to `NONE` as the
claim states. -/
theorem parseCmeError_unlisted_code_eval :
    parseCmeError " +CME ERROR: 100" = .UNDEFINED ∧ CME_Error.UNDEFINED ≠ .NONE := by
  decide

/-- C4 as amended: every `+CME ERROR` line carrying a numeric code is
mapped through the whitelist table `cmeOfCode` — the six whitelisted
codes to their enumerators, every other code to `UNDEFINED` (999), not
to `NONE`; a line without the error marker, such as a valid fix line,
maps to `NONE`, except that an empty buffer (end of input before any
conversion, `sscanf` returns `EOF`) also maps to `UNDEFINED`. -/
theorem parseCmeError_whitelist_amended :
    (∀ ds : List Char, ds ≠ [] → (∀ c ∈ ds, c.isDigit = true) → digitsVal ds < 4294967296 →
      parseCmeError (String.mk (cmeMarker ++ ds)) = cmeOfCode (digitsVal ds)) ∧
    parseCmeError exQlocLine = .NONE ∧
    parseCmeError "" = .UNDEFINED ∧
    cmeOfCode 516 = .NO_FIX ∧ cmeOfCode 504 = .SESSION_IS_ONGOING ∧
    cmeOfCode 505 = .SESSION_NOT_ACTIVE ∧ cmeOfCode 506 = .OPERATION_TIMEOUT ∧
    cmeOfCode 522 = .GNSS_IS_WORKING ∧ cmeOfCode 549 = .UNKNOWN_ERROR := by
  refine ⟨?_, by decide, by decide, by decide, by decide, by decide, by decide, by decide, by decide⟩
  intro ds hne hdig hlt
  unfold parseCmeError
  rw [show (String.mk (cmeMarker ++ ds)).toList = cmeMarker ++ ds from rfl]
  rw [scanCme_marker, scanUInt_cons_space, scanUInt_digits hne hdig]
  simp

/-- C4 witness: the whitelisted no-fix code 516 parses through the
marker and maps through the table. -/
theorem parseCmeError_whitelist_amended_witness :
    parseCmeError (String.mk (cmeMarker ++ ['5', '1', '6'])) = cmeOfCode (digitsVal ['5', '1', '6']) :=
  parseCmeError_whitelist_amended.1 ['5', '1', '6'] (by decide) (by decide) (by decide)

/-- C5: the GPS-only selection — the default configuration — maps to no
configuration code on either supported variant, and no `gnssconfig`
command is issued for it: `LOCATION_CONST_GPS_ONLY` is 0, so the bitwise
test `flags & LOCATION_CONST_GPS_ONLY` is always false, leaving
`configNumber` at −1 (the explicit `configNumber = 0` branch for the
EG91 is dead code).  Other selections, e.g. GPS+GLONASS, do map to their
vendor codes and issue the command on both variants. -/
theorem setConstellation_gps_only_eval :
    setConstellationCfgNum .BG95_M5 LOCATION_CONST_GPS_ONLY = -1 ∧
    setConstellationCfgNum .EG91 LOCATION_CONST_GPS_ONLY = -1 ∧
    setConstellationCmds .BG95_M5 LOCATION_CONST_GPS_ONLY = [] ∧
    setConstellationCmds .EG91 LOCATION_CONST_GPS_ONLY = [] ∧
    setConstellationCmds .BG95_M5 LOCATION_CONST_GPS_GLONASS = [gnssConfigCmd 1] ∧
    setConstellationCmds .EG91 LOCATION_CONST_GPS_GLONASS = [gnssConfigCmd 4] := by
  decide

/-- C6: serialization of a `LocationPoint` into the published location
object.  If `fix == 0` the object holds exactly the `lck = 0` flag and
nothing else.  If `fix != 0` it holds the flag, epoch time, latitude and
longitude at 8 decimals, altitude at 3, heading and speed at 2, HDOP at
1, satellite count, time-to-first-fix at 1 decimal, and the horizontal
(resp. vertical) accuracy at 3 decimals is present if and only if its
value is positive; the name list is exactly these fields. -/
theorem toJsonWriter_fields_spec (p : LocationPoint) :
    (p.fix = 0 → toJsonWriterFields p = [("lck", JVal.jint 0)]) ∧
    (p.fix ≠ 0 →
      ("lck", JVal.jint 1) ∈ toJsonWriterFields p ∧
      ("time", JVal.juint (castUInt32 p.epochTime)) ∈ toJsonWriterFields p ∧
      ("lat", JVal.jnum p.latitude 8) ∈ toJsonWriterFields p ∧
      ("lon", JVal.jnum p.longitude 8) ∈ toJsonWriterFields p ∧
      ("alt", JVal.jnum p.altitude 3) ∈ toJsonWriterFields p ∧
      ("hd", JVal.jnum p.heading 2) ∈ toJsonWriterFields p ∧
      ("spd", JVal.jnum p.speed 2) ∈ toJsonWriterFields p ∧
      ("hdop", JVal.jnum p.horizontalDop 1) ∈ toJsonWriterFields p ∧
      ("nsat", JVal.juint p.satsInUse) ∈ toJsonWriterFields p ∧
      ("ttff", JVal.jnum p.timeToFirstFix 1) ∈ toJsonWriterFields p ∧
      (("h_acc", JVal.jnum p.horizontalAccuracy 3) ∈ toJsonWriterFields p ↔ 0 < p.horizontalAccuracy) ∧
      (("v_acc", JVal.jnum p.verticalAccuracy 3) ∈ toJsonWriterFields p ↔ 0 < p.verticalAccuracy) ∧
      (toJsonWriterFields p).map Prod.fst =
        ["lck", "time", "lat", "lon", "alt", "hd", "spd", "hdop"]
          ++ (if 0 < p.horizontalAccuracy then ["h_acc"] else [])
          ++ (if 0 < p.verticalAccuracy then ["v_acc"] else [])
          ++ ["nsat", "ttff"]) := by
  constructor
  · intro h0
    simp [toJsonWriterFields, h0]
  · intro hfix
    by_cases ha : 0 < p.horizontalAccuracy <;> by_cases hv : 0 < p.verticalAccuracy <;>
      simp [toJsonWriterFields, hfix, ha, hv]

/-- C6 witness: the spec's round-trip sample — a locked point with
latitude 37.422408 and horizontal accuracy 15 carries the 8-decimal
latitude and the `h_acc` field; the unlocked point serializes to the
single flag field. -/
theorem toJsonWriter_fields_spec_witness :
    toJsonWriterFields LocationPoint.zero = [("lck", JVal.jint 0)] ∧
    ("lat", JVal.jnum 37.422408 8) ∈ toJsonWriterFields pEx ∧
    ("h_acc", JVal.jnum 15 3) ∈ toJsonWriterFields pEx := by
  refine ⟨(toJsonWriter_fields_spec LocationPoint.zero).1 rfl, ?_, ?_⟩
  · exact ((toJsonWriter_fields_spec pEx).2 (by decide)).2.2.1
  · exact (((toJsonWriter_fields_spec pEx).2 (by decide)).2.2.2.2.2.2.2.2.2.2.1).mpr (by decide)

/-- C7: if the modem is observed powered off during the poll loop, the
loop exits there — the remaining observations are ignored, whatever they
are — and, when no fix had been accepted yet, the attempt's outcome is
`Unavailable`; an acquisition whose polls already produced an accepted
fix ends `Fixed` regardless of what follows. -/
theorem pollLoop_power_off_unavailable (epe : Bool) (cfg : AcqConfig)
    (l1 l2 : List (Bool × PollObs)) (o : PollObs) (s s' : Nat × ℚ) :
    (pollRun epe cfg l1 s = .inl s' →
      settleOutcome (pollLoop epe cfg (l1 ++ (false, o) :: l2) s) = .Unavailable) ∧
    (pollRun epe cfg l1 s = .inr .fixed →
      settleOutcome (pollLoop epe cfg (l1 ++ l2) s) = .Fixed) := by
  constructor
  · intro h
    unfold pollLoop
    rw [pollRun_append, h]
    simp [pollRun, pollStep, settleOutcome]
  · intro h
    unfold pollLoop
    rw [pollRun_append, h]
    simp [settleOutcome]

/-- C7 witness: a power-off after one fruitless poll yields
`Unavailable`; two qualifying fixes then a power-off still yield
`Fixed`. -/
theorem pollLoop_power_off_unavailable_witness :
    settleOutcome (pollLoop true ⟨2, 50, 0⟩ ([(true, .noFix)] ++ (false, .noFix) :: []) (0, 0)) = .Unavailable ∧
    settleOutcome (pollLoop true ⟨2, 50, 0⟩
      ([(true, .fixObs 1 10), (true, .fixObs 1 10)] ++ [(false, .noFix)]) (0, 0)) = .Fixed :=
  ⟨(pollLoop_power_off_unavailable true ⟨2, 50, 0⟩ [(true, .noFix)] [] .noFix (0, 0) (0, 0)).1 (by decide),
   (pollLoop_power_off_unavailable true ⟨2, 50, 0⟩ [(true, .fixObs 1 10), (true, .fixObs 1 10)]
      [(false, .noFix)] .noFix (0, 0) (0, 0)).2 (by decide)⟩

/-- C8: after any acquisition attempt on the BG95 (no concurrent
GNSS+cellular) the started-flag is cleared, `AT+QGPSEND` is issued, and
the antenna power pin — when configured — is de-asserted, whatever the
attempt's outcome; on the EG91 (concurrency supported), a successful
attempt leaves the receiver running. -/
theorem acquire_teardown_by_variant (pin : Bool) (cfg : AcqConfig)
    (hw : HwState) (obs : List (Bool × PollObs)) :
    (acquireAttempt .BG95_M5 pin cfg hw obs).2.1.gnssStarted = false ∧
    "AT+QGPSEND" ∈ (acquireAttempt .BG95_M5 pin cfg hw obs).2.2 ∧
    (pin = true → (acquireAttempt .BG95_M5 pin cfg hw obs).2.1.antennaOn = false) ∧
    ((acquireAttempt .EG91 pin cfg hw obs).1 = .Fixed →
      (acquireAttempt .EG91 pin cfg hw obs).2.1.gnssStarted = true) := by
  rcases hw with ⟨gs, ant⟩
  cases gs <;> cases pin <;>
    simp [acquireAttempt, concurrentGnssAndCellularSupported]

/-- C8 witness: with a configured antenna pin and a successful two-fix
acquisition, the BG95 ends with antenna power off and the EG91 ends
with GNSS still started. -/
theorem acquire_teardown_by_variant_witness :
    (acquireAttempt .BG95_M5 true ⟨100, 50, 0⟩ ⟨false, false⟩
      [(true, .fixObs 1 0), (true, .fixObs 1 0)]).2.1.antennaOn = false ∧
    (acquireAttempt .EG91 true ⟨100, 50, 0⟩ ⟨false, false⟩
      [(true, .fixObs 1 0), (true, .fixObs 1 0)]).2.1.gnssStarted = true :=
  ⟨(acquire_teardown_by_variant true ⟨100, 50, 0⟩ ⟨false, false⟩
      [(true, .fixObs 1 0), (true, .fixObs 1 0)]).2.2.1 rfl,
   (acquire_teardown_by_variant true ⟨100, 50, 0⟩ ⟨false, false⟩
      [(true, .fixObs 1 0), (true, .fixObs 1 0)]).2.2.2 (by decide)⟩

/-- C9: a `getLocation` or `getLocationAsync` call made with the modem
on, the capability resolved and the in-flight flag set returns `Pending`
immediately and enqueues nothing onto the command queue. -/
theorem second_request_pending_no_enqueue (s : ApiState) (obs : DetectObs)
    (hOn : s.modemOn = true) (hMt : s.modemType ≠ .Unavailable) (hAcq : s.acquiring = true) :
    getLocationF s obs = (.rejected .Pending, setLast s .Pending, false) ∧
    getLocationAsyncF s obs = (.Pending, setLast s .Pending, false) := by
  obtain ⟨mOn, mt, acq, lr⟩ := s
  simp only at hOn hMt hAcq
  subst hOn; subst hAcq
  have hpre : acquirePreCheck ⟨true, mt, true, lr⟩ obs =
      (some .Pending, setLast ⟨true, mt, true, lr⟩ .Pending) := by
    simp [acquirePreCheck, preDetect, hMt]
  constructor
  · simp [getLocationF, hpre]
  · simp [getLocationAsyncF, hpre]

/-- C9 witness: a concrete in-flight state rejects both entry points
with `Pending` and no enqueue. -/
theorem second_request_pending_no_enqueue_witness :
    getLocationF ⟨true, .BG95_M5, true, .Idle⟩ .notCached =
      (.rejected .Pending, setLast ⟨true, .BG95_M5, true, .Idle⟩ .Pending, false) ∧
    getLocationAsyncF ⟨true, .BG95_M5, true, .Idle⟩ .notCached =
      (.Pending, setLast ⟨true, .BG95_M5, true, .Idle⟩ .Pending, false) :=
  second_request_pending_no_enqueue ⟨true, .BG95_M5, true, .Idle⟩ .notCached rfl (by decide) rfl

/-- C10: every rejected `getLocation` / `getLocationAsync` call leaves
its rejection code in the `lastResults` cache, the rejection code is
never `Fixed`, and therefore `getHasFix` reads false after the
rejection, whatever the previous acquisition had achieved. -/
theorem rejection_overwrites_last_results (s : ApiState) (obs : DetectObs)
    (r : LocationResults) (s' : ApiState) :
    (getLocationF s obs = (.rejected r, s', false) →
      getLastResultsF s' = r ∧ r ≠ .Fixed ∧ getHasFixF s' = false) ∧
    (getLocationAsyncF s obs = (r, s', false) →
      getLastResultsF s' = r ∧ r ≠ .Fixed ∧ getHasFixF s' = false) := by
  have main : ∀ {r' : LocationResults} {s'' : ApiState},
      acquirePreCheck s obs = (some r', s'') →
      getLastResultsF s'' = r' ∧ r' ≠ .Fixed ∧ getHasFixF s'' = false := by
    intro r' s'' hpre
    obtain ⟨hl, hc⟩ := acquirePreCheck_rejected hpre
    refine ⟨hl, ?_, ?_⟩
    · rcases hc with h | h | h <;> subst h <;> simp
    · unfold getHasFixF
      rw [hl]
      rcases hc with h | h | h <;> subst h <;> rfl
  constructor
  · intro h
    unfold getLocationF at h
    rcases hpre : acquirePreCheck s obs with ⟨o, s2⟩
    rw [hpre] at h
    cases o with
    | none => exact absurd h (by simp)
    | some r2 =>
      have h1 : CallOutcome.rejected r2 = CallOutcome.rejected r := congrArg Prod.fst h
      have hr : r2 = r := by injection h1
      have hs : s2 = s' := congrArg (fun x => x.2.1) h
      subst hr; subst hs
      exact main hpre
  · intro h
    unfold getLocationAsyncF at h
    rcases hpre : acquirePreCheck s obs with ⟨o, s2⟩
    rw [hpre] at h
    cases o with
    | none => exact absurd (congrArg (fun x => x.2.2) h) (by simp)
    | some r2 =>
      have hr : r2 = r := congrArg Prod.fst h
      have hs : s2 = s' := congrArg (fun x => x.2.1) h
      subst hr; subst hs
      exact main hpre

/-- C10 witness: a modem-off rejection overwrites a cached `Fixed`
result, and `getHasFix` then reads false. -/
theorem rejection_overwrites_last_results_witness :
    getLastResultsF (setLast ⟨false, .Unavailable, false, .Fixed⟩ .Unavailable) = .Unavailable ∧
    LocationResults.Unavailable ≠ .Fixed ∧
    getHasFixF (setLast ⟨false, .Unavailable, false, .Fixed⟩ .Unavailable) = false :=
  (rejection_overwrites_last_results ⟨false, .Unavailable, false, .Fixed⟩ .notCached
    .Unavailable (setLast ⟨false, .Unavailable, false, .Fixed⟩ .Unavailable)).1 (by decide)

end QuectelGnss
